import Mathlib

/-!
Verification of the ecommerce client pages: the order price-breakdown
calculator (`calculatePriceInfo` in the Orders page) and the login
attempt rate-limit state machine of the Login page, together with the
form-validation gating of the Login and Signup submit handlers.

Currency amounts and item quantities are JavaScript numbers; they are
modelled as rationals (ℚ).  `Math.round` is modelled as `jsRound`
(floor of x + 1/2, which is the JavaScript rounding rule, ties toward
+infinity).  Strings stay `String`; the two regex literals of the
sources are transcribed as executable character-class matchers.
-/

/-- JavaScript `Math.round`: round half toward positive infinity. -/
def jsRound (q : ℚ) : ℤ := ⌊q + 1/2⌋

/-- One entry of `order.items` (fields used by the Orders page). -/
structure OrderItem where
  quantity : ℚ
  price : ℚ
deriving DecidableEq, Repr

/-- The fields of an order record read by `calculatePriceInfo`. -/
structure Order where
  totalAmount : ℚ
  paymentMethod : String
  items : List OrderItem
deriving DecidableEq, Repr

/-- The record returned by `calculatePriceInfo`. -/
structure PriceBreakdown where
  originalPrice : ℚ
  discount : ℚ
  discountPercentage : ℚ
  subtotal : ℚ
  shipping : ℚ
  totalItems : ℚ
deriving DecidableEq, Repr

/-- `calculatePriceInfo` from the Orders page.  `extraCharge` is the
ambient cart-context constant, passed here as an explicit argument. -/
def calculatePriceInfo (extraCharge : ℚ) (order : Order) : PriceBreakdown :=
  let shipping : ℚ := if order.paymentMethod = "COD" then 50 else 0
  let subtotal : ℚ := order.totalAmount - shipping
  let totalItems : ℚ := order.items.foldl (fun sum item => sum + item.quantity) 0
  let discount : ℚ := extraCharge * totalItems
  let originalPrice : ℚ := subtotal + discount
  let discountPercentage : ℚ :=
    if originalPrice > 0 then ((jsRound (discount / originalPrice * 100) : ℤ) : ℚ) else 0
  { originalPrice := originalPrice
    discount := discount
    discountPercentage := discountPercentage
    subtotal := subtotal
    shipping := shipping
    totalItems := totalItems }

/-- The rate-limit state of the Login page: `loginAttempts`,
`isBlocked` and `blockTimer` (named as in the spec's LoginAttemptGuard). -/
structure GuardState where
  attemptCount : ℕ
  blocked : Bool
  remainingSeconds : ℕ
deriving DecidableEq, Repr

/-- Initial zeroed state (`useState(0)`, `useState(false)`, `useState(0)`). -/
def GuardState.init : GuardState := ⟨0, false, 0⟩

/-- `isBlocked()` accessor of the guard. -/
def GuardState.isBlocked (s : GuardState) : Bool := s.blocked

/-- `remaining()` accessor of the guard. -/
def GuardState.remaining (s : GuardState) : ℕ := s.remainingSeconds

/-- A failed login: `setLoginAttempts(prev => prev + 1)` followed by the
rate-limit effect `if (loginAttempts >= 5) { setIsBlocked(true); setBlockTimer(300) }`. -/
def recordFailure (s : GuardState) : GuardState :=
  let n := s.attemptCount + 1
  if 5 ≤ n then ⟨n, true, 300⟩ else ⟨n, s.blocked, s.remainingSeconds⟩

/-- A successful login: the success path runs `setLoginAttempts(0)` only;
`isBlocked` and `blockTimer` are not written by it. -/
def recordSuccess (s : GuardState) : GuardState :=
  { s with attemptCount := 0 }

/-- One second of the countdown: the interval decrements `blockTimer`
while `isBlocked && blockTimer > 0`; the effect watching
`[isBlocked, blockTimer]` resets `isBlocked=false, loginAttempts=0`
as soon as the timer is 0. -/
def tick (s : GuardState) : GuardState :=
  if s.blocked then
    if 0 < s.remainingSeconds then
      let r := s.remainingSeconds - 1
      if r = 0 then ⟨0, false, 0⟩ else ⟨s.attemptCount, true, r⟩
    else ⟨0, false, 0⟩
  else s

/-- The character class `[^\s@]` of the email regex
`/^[^\s@]+@[^\s@]+\.[^\s@]+$/` used by Login and Signup. -/
def emailChar (c : Char) : Bool := !c.isWhitespace && c ≠ '@'

/-- Split a character list at every occurrence of `sep` (the behaviour of
`String.split` on the separator predicate, written structurally). -/
def splitOnChar (sep : Char) : List Char → List (List Char)
  | [] => [[]]
  | c :: cs =>
    let r := splitOnChar sep cs
    if c = sep then [] :: r
    else
      match r with
      | h :: t => (c :: h) :: t
      | [] => [[c]]

/-- `emailRegex.test s` for `/^[^\s@]+@[^\s@]+\.[^\s@]+$/`.  Because `@`
is excluded from every class, a match needs exactly one `@`; the part
before it is a nonempty run of class characters, and the part after it
contains only class characters with a `.` that is neither its first nor
its last character (the class contains `.`, so any interior dot splits
the tail into the two required nonempty runs). -/
def matchesEmailRegex (s : String) : Bool :=
  match splitOnChar '@' s.data with
  | [localPart, domain] =>
      !localPart.isEmpty && localPart.all emailChar &&
      domain.all emailChar && ((domain.drop 1).dropLast.contains '.')
  | _ => false

/-- `!s.trim()` in JavaScript: the string trims to the empty string
exactly when every character is whitespace. -/
def trimmedEmpty (s : String) : Bool := s.data.all Char.isWhitespace

/-- The login form fields. -/
structure LoginForm where
  email : String
  password : String
deriving DecidableEq, Repr

/-- `validateForm` of the Login page: no `errors` entry is produced, i.e.
the email is non-blank and matches the regex, and the password is
non-empty with at least 6 characters. -/
def validateForm (f : LoginForm) : Bool :=
  !trimmedEmpty f.email && matchesEmailRegex f.email &&
  f.password ≠ "" && 6 ≤ f.password.length

/-- Outcome of the `login(email, password)` backend call. -/
inductive LoginOutcome where
  | success
  | failure
deriving DecidableEq, Repr

/-- `handleSubmit` of the Login page, as a transition on the guard state:
returns the new state and whether the backend `login` call was invoked.
While blocked, or when validation fails, it returns early without
calling `login`; otherwise the success path resets the attempt counter
and the catch path records a failure. -/
def handleSubmit (s : GuardState) (f : LoginForm) (outcome : LoginOutcome) :
    GuardState × Bool :=
  if s.blocked then (s, false)
  else if validateForm f then
    match outcome with
    | .success => (recordSuccess s, true)
    | .failure => (recordFailure s, true)
  else (s, false)

/-- Events driving the guard state: a submit (with arbitrary form content
and backend outcome) or one second of the block countdown. -/
inductive GuardEvent where
  | submit (f : LoginForm) (outcome : LoginOutcome)
  | second
deriving Repr

/-- One step of the Login page's guard state machine. -/
def step (s : GuardState) : GuardEvent → GuardState
  | .submit f outcome => (handleSubmit s f outcome).1
  | .second => tick s

/-- States reachable from the initial zeroed state. -/
inductive Reachable : GuardState → Prop where
  | init : Reachable GuardState.init
  | step (e : GuardEvent) {s : GuardState} : Reachable s → Reachable (step s e)

/-- Strengthened inductive invariant of the guard machine. -/
def GuardInvStrong (s : GuardState) : Prop :=
  (s.blocked = true → s.attemptCount = 5 ∧ s.remainingSeconds ≤ 300) ∧
  (s.blocked = false → s.attemptCount ≤ 4 ∧ s.remainingSeconds = 0)

/-- Signup form fields. -/
structure SignupForm where
  firstName : String
  lastName : String
  email : String
  password : String
  phone : String
deriving DecidableEq, Repr

/-- The character class `[\d\s\-+()]` of the Signup phone regex. -/
def phoneChar (c : Char) : Bool :=
  c.isDigit || c.isWhitespace || c = '-' || c = '+' || c = '(' || c = ')'

/-- `phoneRegex.test s` for `/^[\d\s\-+()]+$/`. -/
def matchesPhoneRegex (s : String) : Bool :=
  !s.data.isEmpty && s.data.all phoneChar

/-- `checkPasswordStrength` of the Signup page: one point each for
length ≥ 8, an uppercase letter, a lowercase letter, a digit, and a
character outside `[A-Za-z0-9]`. -/
def checkPasswordStrength (password : String) : ℕ :=
  (if 8 ≤ password.length then 1 else 0) +
  (if password.data.any Char.isUpper then 1 else 0) +
  (if password.data.any Char.isLower then 1 else 0) +
  (if password.data.any Char.isDigit then 1 else 0) +
  (if password.data.any (fun c => !c.isAlphanum) then 1 else 0)

/-- `validateForm` of the Signup page.  `strengthScore` is the
`passwordStrength.score` state at submit time (it is produced by the
debounced `checkPasswordStrength` effect, so it is a separate input
rather than recomputed inline). -/
def signupValidateForm (f : SignupForm) (strengthScore : ℕ) : Bool :=
  !trimmedEmpty f.firstName && !trimmedEmpty f.lastName &&
  !trimmedEmpty f.email && matchesEmailRegex f.email &&
  f.password ≠ "" && 3 ≤ strengthScore &&
  !trimmedEmpty f.phone && matchesPhoneRegex f.phone

/-- `handleSubmit` of the Signup page: `if (!validateForm() || isSubmitting)
return;` then `signup(...)`.  Returns whether the backend `signup` call
was invoked. -/
def signupHandleSubmit (f : SignupForm) (strengthScore : ℕ)
    (isSubmitting : Bool) : Bool :=
  if !signupValidateForm f strengthScore || isSubmitting then false else true

/-- A login form accepted by `validateForm`, used to build reachable states. -/
def validLoginForm : LoginForm := ⟨"a@b.c", "123456"⟩

/-- A submit event that fails at the backend with a valid form. -/
def failEvent : GuardEvent := .submit validLoginForm .failure

/-! ### Helper lemmas -/

lemma foldl_quantity_eq_sum (l : List OrderItem) :
    l.foldl (fun sum item => sum + item.quantity) 0
      = (l.map OrderItem.quantity).sum := by
  rw [List.sum_eq_foldl, List.foldl_map]

lemma validLoginForm_valid : validateForm validLoginForm = true := by decide

lemma guardInvStrong_init : GuardInvStrong GuardState.init := by
  constructor <;> simp [GuardState.init]

lemma guardInvStrong_step (s : GuardState) (e : GuardEvent)
    (ih : GuardInvStrong s) : GuardInvStrong (step s e) := by
  obtain ⟨hb, hnb⟩ := ih
  obtain ⟨a, b, r⟩ := s
  dsimp only at hb hnb
  cases e with
  | second =>
    cases b with
    | false => simpa [step, tick] using ⟨hb, hnb⟩
    | true =>
      obtain ⟨ha, hr⟩ := hb rfl
      simp only [step, tick]
      by_cases h1 : 0 < r
      · simp only [if_pos h1, if_pos rfl]
        by_cases h2 : r - 1 = 0
        · simp [h2, GuardInvStrong]
        · simp only [if_neg h2]
          refine ⟨fun _ => ⟨ha, ?_⟩, by simp⟩
          show r - 1 ≤ 300
          omega
      · simp [h1, GuardInvStrong]
  | submit f outcome =>
    cases b with
    | true => simpa [step, handleSubmit] using ⟨hb, hnb⟩
    | false =>
      obtain ⟨ha, hr⟩ := hnb rfl
      simp only [step, handleSubmit, Bool.false_eq_true, if_false]
      by_cases hv : validateForm f
      · simp only [if_pos hv]
        cases outcome with
        | success => exact ⟨by simp [recordSuccess], by simp [recordSuccess, hr]⟩
        | failure =>
          simp only [recordFailure]
          by_cases h5 : 5 ≤ a + 1
          · simp only [if_pos h5]
            refine ⟨fun _ => ⟨?_, ?_⟩, by simp⟩
            · show a + 1 = 5
              omega
            · show (300 : ℕ) ≤ 300
              exact le_rfl
          · simp only [if_neg h5]
            refine ⟨by simp, fun _ => ⟨?_, hr⟩⟩
            show a + 1 ≤ 4
            omega
      · simpa [hv] using ⟨hb, fun _ => ⟨ha, hr⟩⟩

lemma reachable_strong_inv {s : GuardState} (h : Reachable s) :
    GuardInvStrong s := by
  induction h with
  | init => exact guardInvStrong_init
  | step e _ ih => exact guardInvStrong_step _ e ih

lemma reachable_blocked_state : Reachable ⟨5, true, 300⟩ := by
  have h1 := Reachable.step failEvent Reachable.init
  have h2 := Reachable.step failEvent h1
  have h3 := Reachable.step failEvent h2
  have h4 := Reachable.step failEvent h3
  have h5 := Reachable.step failEvent h4
  have heq : step (step (step (step (step GuardState.init failEvent)
      failEvent) failEvent) failEvent) failEvent = ⟨5, true, 300⟩ := by decide
  rwa [heq] at h5

lemma jsRound_bounds {x : ℚ} (h0 : 0 ≤ x) (h100 : x ≤ 100) :
    (0 : ℚ) ≤ ((jsRound x : ℤ) : ℚ) ∧ ((jsRound x : ℤ) : ℚ) ≤ 100 := by
  unfold jsRound
  constructor
  · have h : (0 : ℤ) ≤ ⌊x + 1/2⌋ := Int.le_floor.mpr (by push_cast; linarith)
    exact_mod_cast h
  · have h : ⌊x + 1/2⌋ < 101 := Int.floor_lt.mpr (by push_cast; linarith)
    have h2 : ⌊x + 1/2⌋ ≤ 100 := by omega
    exact_mod_cast h2

/-! ### Claim theorems -/

set_option maxRecDepth 4000

/-- C1: for every order and extra charge, the breakdown satisfies
shipping = 50 iff COD else 0, subtotal = totalAmount - shipping,
totalItems = the sum of the item quantities (0 for an empty list),
discount = extraCharge * totalItems, and originalPrice = subtotal +
discount. -/
theorem calculatePriceInfo_breakdown_fields (extraCharge : ℚ) (order : Order) :
    (calculatePriceInfo extraCharge order).shipping
        = (if order.paymentMethod = "COD" then 50 else 0) ∧
    (calculatePriceInfo extraCharge order).subtotal
        = order.totalAmount - (calculatePriceInfo extraCharge order).shipping ∧
    (calculatePriceInfo extraCharge order).totalItems
        = (order.items.map OrderItem.quantity).sum ∧
    (calculatePriceInfo extraCharge order).discount
        = extraCharge * (calculatePriceInfo extraCharge order).totalItems ∧
    (calculatePriceInfo extraCharge order).originalPrice
        = (calculatePriceInfo extraCharge order).subtotal
            + (calculatePriceInfo extraCharge order).discount := by
  simp [calculatePriceInfo, foldl_quantity_eq_sum]

/-- C2: from the zeroed initial guard state, 4 failures leave the guard
unblocked; the 5th blocks it with 300 remaining seconds; 300 further
ticks unblock it and clear the attempt counter. -/
theorem loginGuard_attempt_trace :
    (recordFailure^[4] GuardState.init).isBlocked = false ∧
    (recordFailure^[5] GuardState.init).isBlocked = true ∧
    (recordFailure^[5] GuardState.init).remaining = 300 ∧
    (tick^[300] (recordFailure^[5] GuardState.init)).isBlocked = false ∧
    (tick^[300] (recordFailure^[5] GuardState.init)).attemptCount = 0 := by
  decide

/-- C3: the computation is total, and whenever the computed
originalPrice is ≤ 0 the guarded branch returns discountPercentage = 0
without dividing. -/
theorem discountPercentage_zero_of_nonpos (extraCharge : ℚ) (order : Order)
    (h : (calculatePriceInfo extraCharge order).originalPrice ≤ 0) :
    (calculatePriceInfo extraCharge order).discountPercentage = 0 := by
  simp only [calculatePriceInfo] at h ⊢
  rw [if_neg (not_lt.mpr h)]

theorem discountPercentage_zero_of_nonpos_witness :
    (calculatePriceInfo 0 ⟨0, "COD", []⟩).originalPrice ≤ 0 ∧
    (calculatePriceInfo 0 ⟨0, "COD", []⟩).discountPercentage = 0 :=
  ⟨by norm_num [calculatePriceInfo],
   discountPercentage_zero_of_nonpos 0 ⟨0, "COD", []⟩
     (by norm_num [calculatePriceInfo])⟩

/-- C4 counterexample: the blocked state reached after 5 failures is a
reachable state, and the success path (which only runs
`setLoginAttempts(0)`) applied there does not produce the zeroed state:
`blocked` and `remainingSeconds` are untouched. -/
theorem recordSuccess_blocked_counterexample :
    Reachable ⟨5, true, 300⟩ ∧
    recordSuccess ⟨5, true, 300⟩ ≠ (⟨0, false, 0⟩ : GuardState) :=
  ⟨reachable_blocked_state, by decide⟩

/-- C4 (amended): from every reachable guard state with blocked = false
(the only states from which the submit handler can reach the success
path), the success reset produces attemptCount = 0, blocked = false,
remainingSeconds = 0. -/
theorem recordSuccess_resets_unblocked (s : GuardState) (hr : Reachable s)
    (hb : s.blocked = false) :
    recordSuccess s = (⟨0, false, 0⟩ : GuardState) := by
  have h := (reachable_strong_inv hr).2 hb
  obtain ⟨a, b, r⟩ := s
  simp only [recordSuccess]
  simp_all

theorem recordSuccess_resets_unblocked_witness :
    recordSuccess GuardState.init = (⟨0, false, 0⟩ : GuardState) :=
  recordSuccess_resets_unblocked GuardState.init Reachable.init rfl

/-- C5: while the guard is blocked, a submit event returns before the
login call: the state is unchanged and no backend call is made,
whatever the form content and backend outcome. -/
theorem handleSubmit_blocked_noop (s : GuardState) (f : LoginForm)
    (outcome : LoginOutcome) (h : s.blocked = true) :
    handleSubmit s f outcome = (s, false) := by
  simp [handleSubmit, h]

theorem handleSubmit_blocked_noop_witness :
    handleSubmit ⟨5, true, 300⟩ validLoginForm .failure
      = ((⟨5, true, 300⟩ : GuardState), false) :=
  handleSubmit_blocked_noop ⟨5, true, 300⟩ validLoginForm .failure rfl

/-- C6: the worked example of the spec: totalAmount 450, COD, item
quantities 2 and 1, extra charge 30 per item give shipping 50,
subtotal 400, totalItems 3, discount 90, originalPrice 490 and
discountPercentage 18 (for any item prices, which the computation
ignores). -/
theorem calculatePriceInfo_example (p q : ℚ) :
    calculatePriceInfo 30 ⟨450, "COD", [⟨2, p⟩, ⟨1, q⟩]⟩ =
      ⟨490, 90, 18, 400, 50, 3⟩ := by
  have hf : jsRound (900 / 49) = 18 := by
    rw [jsRound, Int.floor_eq_iff]
    constructor <;> norm_num
  simp [calculatePriceInfo, PriceBreakdown.mk.injEq]
  norm_num [hf]

/-- C7: with a nonnegative extra charge, nonnegative item quantities
and totalAmount at least the shipping fee, the discount percentage is
between 0 and 100. -/
theorem discountPercentage_in_range (extraCharge : ℚ) (order : Order)
    (hec : 0 ≤ extraCharge)
    (hq : ∀ item ∈ order.items, 0 ≤ item.quantity)
    (hta : (if order.paymentMethod = "COD" then (50 : ℚ) else 0)
             ≤ order.totalAmount) :
    0 ≤ (calculatePriceInfo extraCharge order).discountPercentage ∧
    (calculatePriceInfo extraCharge order).discountPercentage ≤ 100 := by
  have hT : (0 : ℚ)
      ≤ order.items.foldl (fun sum item => sum + item.quantity) 0 := by
    rw [foldl_quantity_eq_sum]
    refine List.sum_nonneg ?_
    intro x hx
    obtain ⟨item, hitem, rfl⟩ := List.mem_map.mp hx
    exact hq item hitem
  simp only [calculatePriceInfo]
  set T : ℚ := order.items.foldl (fun sum item => sum + item.quantity) 0
    with hTdef
  set S : ℚ := if order.paymentMethod = "COD" then (50 : ℚ) else 0 with hSdef
  set d : ℚ := extraCharge * T with hddef
  set A : ℚ := order.totalAmount - S + d with hAdef
  have hd : 0 ≤ d := mul_nonneg hec hT
  have hsub : 0 ≤ order.totalAmount - S := by linarith
  by_cases hp : A > 0
  · rw [if_pos hp]
    have hdA : d ≤ A := by rw [hAdef]; linarith
    have hx0 : 0 ≤ d / A * 100 :=
      mul_nonneg (div_nonneg hd hp.le) (by norm_num)
    have hx100 : d / A * 100 ≤ 100 := by
      have h1 : d / A ≤ 1 := (div_le_one hp).mpr hdA
      linarith
    exact jsRound_bounds hx0 hx100
  · rw [if_neg hp]
    norm_num

theorem discountPercentage_in_range_witness :
    0 ≤ (calculatePriceInfo 30
          ⟨450, "COD", [⟨2, 199⟩, ⟨1, 249⟩]⟩).discountPercentage ∧
    (calculatePriceInfo 30
          ⟨450, "COD", [⟨2, 199⟩, ⟨1, 249⟩]⟩).discountPercentage ≤ 100 :=
  discountPercentage_in_range 30 ⟨450, "COD", [⟨2, 199⟩, ⟨1, 249⟩]⟩
    (by norm_num)
    (by intro item h; fin_cases h <;> norm_num)
    (by norm_num)

/-- C8: the Login and Signup submit handlers invoke the backend call
only when client-side validation passes, and when validation fails they
return with the state unchanged and no network call. -/
theorem validation_gates_network_calls :
    (∀ (s : GuardState) (f : LoginForm) (outcome : LoginOutcome),
        validateForm f = false → handleSubmit s f outcome = (s, false)) ∧
    (∀ (s : GuardState) (f : LoginForm) (outcome : LoginOutcome),
        (handleSubmit s f outcome).2 = true → validateForm f = true) ∧
    (∀ (f : SignupForm) (score : ℕ) (submitting : Bool),
        signupValidateForm f score = false →
          signupHandleSubmit f score submitting = false) ∧
    (∀ (f : SignupForm) (score : ℕ) (submitting : Bool),
        signupHandleSubmit f score submitting = true →
          signupValidateForm f score = true) := by
  refine ⟨?_, ?_, ?_, ?_⟩
  · intro s f outcome hv
    by_cases hb : s.blocked <;> simp [handleSubmit, hb, hv]
  · intro s f outcome h
    by_cases hb : s.blocked
    · simp [handleSubmit, hb] at h
    · by_cases hv : validateForm f
      · exact hv
      · simp [handleSubmit, hb, hv] at h
  · intro f score submitting hv
    simp [signupHandleSubmit, hv]
  · intro f score submitting h
    by_cases hv : signupValidateForm f score
    · exact hv
    · simp [signupHandleSubmit, hv] at h

theorem validation_gates_network_calls_witness :
    handleSubmit GuardState.init ⟨"not-an-email", "123456"⟩ .success
      = (GuardState.init, false) :=
  validation_gates_network_calls.1 GuardState.init
    ⟨"not-an-email", "123456"⟩ .success (by decide)

/-- C9: the price-breakdown computation is a pure function of the order
and the extra charge: two calls on identical inputs return identical
records (and the embedding is a function with no other state). -/
theorem calculatePriceInfo_deterministic (extraCharge1 extraCharge2 : ℚ)
    (order1 order2 : Order) (hec : extraCharge1 = extraCharge2)
    (ho : order1 = order2) :
    calculatePriceInfo extraCharge1 order1
      = calculatePriceInfo extraCharge2 order2 := by
  rw [hec, ho]

theorem calculatePriceInfo_deterministic_witness :
    calculatePriceInfo 30 ⟨450, "COD", [⟨2, 199⟩]⟩
      = calculatePriceInfo 30 ⟨450, "COD", [⟨2, 199⟩]⟩ :=
  calculatePriceInfo_deterministic 30 30 ⟨450, "COD", [⟨2, 199⟩]⟩
    ⟨450, "COD", [⟨2, 199⟩]⟩ rfl rfl

/-- C10: every state reachable from the zeroed initial state through
submit events (failures are accepted only while not blocked, as the
handler short-circuits) and countdown ticks satisfies: attemptCount
between 0 and 5, remainingSeconds nonnegative, blocked implies
attemptCount = 5 with remainingSeconds ≤ 300, and not blocked implies
remainingSeconds = 0. -/
theorem reachable_guard_invariant (s : GuardState) (h : Reachable s) :
    0 ≤ s.attemptCount ∧ s.attemptCount ≤ 5 ∧ 0 ≤ s.remainingSeconds ∧
    (s.blocked = true → s.attemptCount = 5 ∧ s.remainingSeconds ≤ 300) ∧
    (s.blocked = false → s.remainingSeconds = 0) := by
  obtain ⟨hb, hnb⟩ := reachable_strong_inv h
  refine ⟨Nat.zero_le _, ?_, Nat.zero_le _, hb, fun h2 => (hnb h2).2⟩
  cases hbv : s.blocked
  · exact le_trans (hnb hbv).1 (by norm_num)
  · exact (hb hbv).1.le

theorem reachable_guard_invariant_witness :
    0 ≤ GuardState.init.attemptCount ∧ GuardState.init.attemptCount ≤ 5 ∧
    0 ≤ GuardState.init.remainingSeconds ∧
    (GuardState.init.blocked = true →
      GuardState.init.attemptCount = 5 ∧
      GuardState.init.remainingSeconds ≤ 300) ∧
    (GuardState.init.blocked = false →
      GuardState.init.remainingSeconds = 0) :=
  reachable_guard_invariant GuardState.init Reachable.init
